import Mathlib

/-!
Verification of the volition classifier in `ishi/ishi.py` (class `Ishi`).

The classifier consumes a morphological analysis produced by the external
parser pyknp/KNP.  The parser's data types (`Morpheme`, `Tag`, `BList`,
predicate-argument structures) are not part of this repository, so they are
modelled from the specification's data model (spec sections 3 and 6):

* a morpheme carries a surface form (`midasi`), a POS subcategory (`bunrui`),
  a canonical lemma+reading pair (`repname`) and a set of semantic labels
  (`imis`), modelled as a list of strings;
* a chunk (`Tag`) carries its morphemes in document order, a feature
  annotation, an optional predicate-argument structure (`pas`), and two
  optional head lemmas (the absent case is modelled as the empty string,
  which is also how Python truthiness treats it);
* the feature annotation (`fstring`) is a sequence of bracketed features
  `<f1><f2>...`; an individual feature contains no angle bracket, so the
  regular-expression scans performed by the source are faithfully modelled
  as scans over the list of feature strings.

Everything below the data model is translated directly from the source of
`ishi.py`.
-/

namespace Ishi

/-- Modelled from the spec: a pyknp morpheme, the smallest lexical unit
(spec section 3).  `imis` is the set of free-form semantic labels, given by
the parser-collaborator contract (spec section 6). -/
structure Morpheme where
  midasi : String
  bunrui : String
  repname : String
  imis : List String
deriving DecidableEq, Repr

/-- Modelled from the spec: a pyknp predicate argument.  `tid = -1` marks a
bare surface reference (exophora); otherwise `tid` is a chunk index within
the sentence `sid` (spec section 3, Argument Reference). -/
structure Argument where
  sid : String
  tid : Int
  midasi : String
deriving DecidableEq, Repr

/-- Modelled from the spec: a pyknp predicate-argument structure; a mapping
from case-role labels to the ordered list of arguments filling them
(spec section 3, case frame). -/
structure Pas where
  arguments : List (String × List Argument)
deriving DecidableEq, Repr

/-- Modelled from the spec: a pyknp chunk (`Tag`).  The feature annotation
`fstring` is kept as the list of its bracketed feature strings. -/
structure Tag where
  fstring : List String
  mrphs : List Morpheme
  pas : Option Pas
  head_prime_repname : String
  head_repname : String
deriving DecidableEq, Repr

/-- Modelled from the spec: a pyknp sentence analysis (`BList`), an ordered
sequence of chunks with a sentence id. -/
structure BList where
  sid : String
  tags : List Tag
deriving DecidableEq, Repr

/-- A value that is either a surface string or a chunk, as accepted for the
`nominative_str_or_tag` parameter of `Ishi.__call__`. -/
inductive StrOrTag where
  | str (s : String)
  | tag (t : Tag)
deriving DecidableEq, Repr

/-- The two accepted pre-parsed input shapes of `Ishi.__call__`
(`BList` and `Tag`); the raw-string shape delegates to the external parser
and then follows the `BList` path. -/
inductive IshiInput where
  | blist (b : BList)
  | tag (t : Tag)
deriving DecidableEq, Repr

/-- Errors the Python code can raise on these paths: `IndexError` from
indexing an empty chunk list, and `AttributeError` from calling `.group(1)`
on a failed regular-expression search. -/
inductive IshiError where
  | indexError
  | attributeError
deriving DecidableEq, Repr

deriving instance DecidableEq for Except

/-! ### Rule sets (inline literals of `ishi.py`) -/

/-- The valid nominative surface strings of `ishi.py` line 103. -/
def validNominativeStrings : List String := ["著者", "読者", "不特定:人"]

/-- The volition modalities of `ishi.py` line 115. -/
def volitionModalities : List String :=
  ["意志", "命令", "依頼Ａ", "依頼Ｂ", "評価:弱", "評価:強"]

/-- The non-volition voices of `ishi.py` line 127. -/
def nonVolitionVoices : List String :=
  ["受動", "可能", "受動|可能", "使役&受動", "使役&受動|使役&可能"]

/-- The adjectival-predicate-suffix repnames that keep volitionality,
`ishi.py` line 141. -/
def validAdjectivePredicateSuffixRepnames : List String := ["ない/ない", "たい/たい"]

/-- The non-volition verbal-suffix repnames, `ishi.py` lines 153-168. -/
def nonVolitionSuffixes : List String :=
  ["なる/なる", "くれる/くれる", "しまう/しまう", "下さる/くださる", "得る/える",
   "過ぎる/すぎる", "かねる/かねる", "あぐむ/あぐむ", "あぐねる/あぐねる",
   "そびれる/そびれる", "めく/めく", "ちまう/ちまう", "じまう/じまう", "やがる/やがる"]

/-! ### Feature extraction

The source reads the feature annotation with regular expressions such as
`<モダリティ-(.+?)>`, `<態:(.+?)>` and `<SM-(.+?)>`: a labelled feature with a
non-empty value.  Over the feature-list model this is: a feature that starts
with the label and is strictly longer than it; its value is the remainder. -/

/-- Whether the string `f` starts with the string `pre`, computed over the
character lists so that concrete instances evaluate by kernel reduction. -/
def strStartsWith (f pre : String) : Bool :=
  decide (f.data.take pre.data.length = pre.data)

/-- The value of a labelled feature: `featValue l f = some v` when
`f = l ++ v` with `v` non-empty, `none` otherwise (one match of the source's
regular expression `<l(.+?)>` against the feature `f`). -/
def featValue (label f : String) : Option String :=
  if strStartsWith f label ∧ label.data.length < f.data.length then
    some (String.mk (f.data.drop label.data.length))
  else none

/-- All values of a labelled feature in a feature annotation, in order
(the source's `re.findall`). -/
def featValues (label : String) (fs : List String) : List String :=
  fs.filterMap (featValue label)

/-- The first hit of an option-valued function along a list; used for the
source's loops with early `return` and for `re.search` (first match). -/
def firstHit {α β : Type} (f : α → Option β) : List α → Option β
  | [] => none
  | x :: xs =>
    match f x with
    | some b => some b
    | none => firstHit f xs

/-! ### The decision cascade of `Ishi.__call__` -/

/-- Stage 1, `ishi.py` lines 102-111: an explicit surface nominative must be
one of `validNominativeStrings`; a chunk nominative must carry the semantic
marker 主体 in an `SM-` feature; an unresolved nominative only logs a warning
and continues. -/
def checkNominative : Option StrOrTag → Option Bool
  | some (StrOrTag.str s) =>
    if s ∈ validNominativeStrings then none else some false
  | some (StrOrTag.tag nt) =>
    if "主体" ∈ featValues "SM-" nt.fstring then none else some false
  | none => none

/-- Stage 2, `ishi.py` lines 113-117: any モダリティ- feature whose value is a
volition modality yields the verdict true. -/
def checkModality (fs : List String) : Option Bool :=
  if (featValues "モダリティ-" fs).any (fun m => decide (m ∈ volitionModalities))
  then some true
  else none

/-- The value of the first 態: feature, `ishi.py` line 120 (`re.search`). -/
def voiceValue (fs : List String) : Option String :=
  firstHit (featValue "態:") fs

/-- Stage 3, `ishi.py` lines 119-129: the first 態: feature value is compared
with 使役 (verdict true) and with the `nonVolitionVoices` (verdict false);
any other value, or no 態: feature, produces no verdict. -/
def checkVoice (fs : List String) : Option Bool :=
  match voiceValue fs with
  | none => none
  | some v =>
    if v = "使役" then some true
    else if v ∈ nonVolitionVoices then some false
    else none

/-- One iteration of the stage-4 loop body, `ishi.py` lines 132-171.  The
source tests the three POS subcategories in sequence with early returns;
since a morpheme has a single `bunrui`, the tests are mutually exclusive. -/
def suffixVerdict (m : Morpheme) : Option Bool :=
  if m.bunrui = "形容詞性名詞接尾辞" then some false
  else if m.bunrui = "形容詞性述語接尾辞" then
    if m.repname ∈ validAdjectivePredicateSuffixRepnames then none else some false
  else if m.bunrui = "動詞性接尾辞" then
    if "可能接尾辞" ∈ m.imis then some false
    else if m.repname ∈ nonVolitionSuffixes then some false
    else none
  else none

/-- Stage 4, `ishi.py` lines 131-171: the loop
`for mrph in reversed(predicate_tag.mrph_list())` with early returns. -/
def checkSuffix (mrphs : List Morpheme) : Option Bool :=
  firstHit suffixVerdict mrphs.reverse

/-- The capture group of `re.search('<用言:([動形判])>', fstring)`,
`ishi.py` line 174: the first feature equal to 用言:動, 用言:形 or 用言:判. -/
def yougenType (fs : List String) : Option String :=
  firstHit (fun f =>
    if f = "用言:動" then some "動"
    else if f = "用言:形" then some "形"
    else if f = "用言:判" then some "判"
    else none) fs

/-- Stage 5, `ishi.py` lines 173-177.  When no 用言:[動形判] feature exists,
`re.search` returns None and `.group(1)` raises AttributeError. -/
def checkType (fs : List String) : Except IshiError (Option Bool) :=
  match yougenType fs with
  | none => Except.error IshiError.attributeError
  | some ty =>
    if ty = "形" ∨ ty = "判" then Except.ok (some false) else Except.ok none

/-- One iteration of the stage-6 morpheme loop body, `ishi.py`
lines 184-193. -/
def meaningVerdict (m : Morpheme) : Option Bool :=
  if "可能動詞" ∈ m.imis then some false
  else if "自他動詞:他" ∈ m.imis then some false
  else none

/-- Python `a or b` on strings: `a` when non-empty, else `b`
(`ishi.py` line 180, also covering an absent repname modelled as ""). -/
def pyOr (a b : String) : String := if a = "" then b else a

/-- Stage 6, `ishi.py` lines 179-193: the exceptional-head-repname lookup
followed by the reversed morpheme scan for 可能動詞 and 自他動詞:他. -/
def checkMeaning (exceptional : List String) (t : Tag) : Option Bool :=
  if pyOr t.head_prime_repname t.head_repname ∈ exceptional then some false
  else firstHit meaningVerdict t.mrphs.reverse

/-- Stages 4 to 7 of the cascade, `ishi.py` lines 131-195: suffix scan, then
predicate type (which can raise), then lexical meaning, then the default
verdict true. -/
def cascadeFromSuffix (exceptional : List String) (t : Tag) : Except IshiError Bool :=
  match checkSuffix t.mrphs with
  | some b => Except.ok b
  | none =>
    match checkType t.fstring with
    | Except.error e => Except.error e
    | Except.ok (some b) => Except.ok b
    | Except.ok none =>
      match checkMeaning exceptional t with
      | some b => Except.ok b
      | none => Except.ok true

/-- The whole decision cascade of `Ishi.__call__`, `ishi.py` lines 102-195,
applied to the predicate chunk and the resolved nominative. -/
def evaluateCascade (exceptional : List String) (t : Tag) (nom : Option StrOrTag) :
    Except IshiError Bool :=
  match checkNominative nom with
  | some b => Except.ok b
  | none =>
    match checkModality t.fstring with
    | some b => Except.ok b
    | none =>
      match checkVoice t.fstring with
      | some b => Except.ok b
      | none => cascadeFromSuffix exceptional t

/-! ### Nominative resolution, predicate extraction, construction -/

/-- Python truthiness of the `nominative_str_or_tag` argument
(`ishi.py` line 92, `if not nominative_str_or_tag:`): `None` and the empty
string are falsy; a `Tag` object is always truthy. -/
def pyFalsy : Option StrOrTag → Bool
  | none => true
  | some (StrOrTag.str s) => s == ""
  | some (StrOrTag.tag _) => false

/-- `dict.get('ガ', [])` over the modelled argument mapping
(`ishi.py` line 94). -/
def lookupArgs (args : List (String × List Argument)) (key : String) : List Argument :=
  match args.find? (fun p => p.1 == key) with
  | some p => p.2
  | none => []

/-- Python list indexing `blist.tag_list()[i]` for an `Int` index: negative
indices count from the end; an out-of-range index has no value (the source
reaches this only under the guard `i < len` with `i ≠ -1`; parser-produced
arguments have `tid ≥ -1`, spec section 3). -/
def pyListGet (l : List Tag) (i : Int) : Option Tag :=
  if 0 ≤ i then l[i.toNat]?
  else if 0 ≤ (l.length : Int) + i then l[((l.length : Int) + i).toNat]?
  else none

/-- The case-frame lookup of `ishi.py` lines 93-100: the first ガ argument of
the predicate's pas, returned as a surface string when `tid = -1`, as the
referenced chunk when it lies in the same sentence and in range. -/
def resolveFromPas (blistOpt : Option BList) (t : Tag) : Option StrOrTag :=
  match t.pas with
  | none => none
  | some pas =>
    match lookupArgs pas.arguments "ガ" with
    | [] => none
    | nominative :: _ =>
      if nominative.tid = -1 then some (StrOrTag.str nominative.midasi)
      else
        match blistOpt with
        | none => none
        | some b =>
          if nominative.sid = b.sid ∧ nominative.tid < (b.tags.length : Int) then
            (pyListGet b.tags nominative.tid).map StrOrTag.tag
          else none

/-- The nominative-resolution step of `ishi.py` lines 92-100: when the
supplied nominative is falsy, the case frame may overwrite it; otherwise it
is left unchanged. -/
def resolveNominative (blistOpt : Option BList) (t : Tag)
    (explicit : Option StrOrTag) : Option StrOrTag :=
  if pyFalsy explicit then
    match resolveFromPas blistOpt t with
    | some v => some v
    | none => explicit
  else explicit

/-- Whether a chunk's feature annotation contains the substring `<用言:`
(`ishi.py` line 223); over the feature-list model, whether some feature
starts with 用言:. -/
def isYougenTag (t : Tag) : Bool :=
  t.fstring.any (fun f => strStartsWith f "用言:")

/-- `Ishi.extract_predicate_tag`, `ishi.py` lines 211-226: the first chunk,
scanning right to left, whose feature annotation carries `<用言:`; otherwise
the last chunk; on an empty chunk list, `tag_list()[-1]` raises IndexError. -/
def extract_predicate_tag (tags : List Tag) : Except IshiError Tag :=
  match tags.reverse.find? isYougenTag with
  | some t => Except.ok t
  | none =>
    match tags.getLast? with
    | some t => Except.ok t
    | none => Except.error IshiError.indexError

/-- The rule-set initialisation of `Ishi.__init__`, `ishi.py` lines 54-57:
`if non_volition_head_repnames:` is a Python truthiness test, so `None` and
the empty list both fall back to the file-backed default (the Python `set`
conversion is kept as a list; all uses are membership tests). -/
def initExceptionalHeadRepnames (fileRepnames : List String) :
    Option (List String) → List String
  | some l => if l = [] then fileRepnames else l
  | none => fileRepnames

/-- `Ishi.__call__` on the two pre-parsed input shapes, `ishi.py`
lines 79-195: predicate extraction, nominative resolution, then the
cascade. -/
def call (exceptional : List String) (input : IshiInput)
    (nominative : Option StrOrTag) : Except IshiError Bool :=
  match input with
  | IshiInput.blist b =>
    match extract_predicate_tag b.tags with
    | Except.error e => Except.error e
    | Except.ok predicate_tag =>
      evaluateCascade exceptional predicate_tag
        (resolveNominative (some b) predicate_tag nominative)
  | IshiInput.tag t =>
    evaluateCascade exceptional t (resolveNominative none t nominative)

/-! ### Scan lemmas -/

theorem firstHit_cons_some {α β : Type} {f : α → Option β} {x : α} {b : β}
    {xs : List α} (h : f x = some b) : firstHit f (x :: xs) = some b := by
  simp [firstHit, h]

theorem firstHit_cons_none {α β : Type} {f : α → Option β} {x : α} {xs : List α}
    (h : f x = none) : firstHit f (x :: xs) = firstHit f xs := by
  simp [firstHit, h]

theorem firstHit_append_none {α β : Type} {f : α → Option β} {l₁ l₂ : List α}
    (h : ∀ x ∈ l₁, f x = none) : firstHit f (l₁ ++ l₂) = firstHit f l₂ := by
  induction l₁ with
  | nil => rfl
  | cons x xs ih =>
    rw [List.cons_append, firstHit_cons_none (h x (List.mem_cons_self x xs))]
    exact ih fun y hy => h y (List.mem_cons_of_mem x hy)

theorem firstHit_eq_none_iff {α β : Type} {f : α → Option β} {l : List α} :
    firstHit f l = none ↔ ∀ x ∈ l, f x = none := by
  induction l with
  | nil => simp [firstHit]
  | cons x xs ih =>
    cases h : f x with
    | some b => simp [firstHit, h]
    | none => simp [firstHit, h, ih]

theorem firstHit_const_of_mem {α β : Type} {f : α → Option β} {l : List α}
    {x : α} {b : β} (hm : x ∈ l) (hx : f x = some b)
    (hall : ∀ y b', f y = some b' → b' = b) : firstHit f l = some b := by
  induction l with
  | nil => cases hm
  | cons y ys ih =>
    cases hfy : f y with
    | some b' =>
      rw [firstHit_cons_some hfy, hall y b' hfy]
    | none =>
      rw [firstHit_cons_none hfy]
      rcases List.mem_cons.1 hm with rfl | hm'
      · rw [hfy] at hx; cases hx
      · exact ih hm'

theorem find?_append_of_none {α : Type} {p : α → Bool} {l₁ l₂ : List α}
    (h : List.find? p l₁ = none) :
    List.find? p (l₁ ++ l₂) = List.find? p l₂ := by
  induction l₁ with
  | nil => rfl
  | cons x xs ih =>
    cases hp : p x with
    | true => simp [List.find?, hp] at h
    | false =>
      simp only [List.cons_append, List.find?, hp] at h ⊢
      exact ih h

/-! ### Stage lemmas shared by several claims -/

theorem checkModality_fires {fs : List String} {f m : String}
    (hf : f ∈ fs) (hfv : featValue "モダリティ-" f = some m)
    (hm : m ∈ volitionModalities) : checkModality fs = some true := by
  have h1 : m ∈ featValues "モダリティ-" fs := List.mem_filterMap.2 ⟨f, hf, hfv⟩
  have h2 : (featValues "モダリティ-" fs).any
      (fun x => decide (x ∈ volitionModalities)) = true :=
    List.any_eq_true.2 ⟨m, h1, decide_eq_true hm⟩
  simp [checkModality, h2]

theorem suffixVerdict_false {m : Morpheme} {b : Bool}
    (h : suffixVerdict m = some b) : b = false := by
  unfold suffixVerdict at h
  repeat' split at h
  all_goals simp_all

theorem evaluateCascade_stage4 {ex : List String} {t : Tag} {nom : Option StrOrTag}
    (h1 : checkNominative nom = none) (h2 : checkModality t.fstring = none)
    (h3 : checkVoice t.fstring = none) :
    evaluateCascade ex t nom = cascadeFromSuffix ex t := by
  simp only [evaluateCascade, h1, h2, h3]

theorem evaluateCascade_shape (ex : List String) (t : Tag) (nom : Option StrOrTag) :
    (∃ b, evaluateCascade ex t nom = Except.ok b)
    ∨ (evaluateCascade ex t nom = Except.error IshiError.attributeError
        ∧ yougenType t.fstring = none) := by
  cases h1 : checkNominative nom with
  | some b => exact Or.inl ⟨b, by simp [evaluateCascade, h1]⟩
  | none =>
  cases h2 : checkModality t.fstring with
  | some b => exact Or.inl ⟨b, by simp [evaluateCascade, h1, h2]⟩
  | none =>
  cases h3 : checkVoice t.fstring with
  | some b => exact Or.inl ⟨b, by simp [evaluateCascade, h1, h2, h3]⟩
  | none =>
  cases h4 : checkSuffix t.mrphs with
  | some b =>
    exact Or.inl ⟨b, by simp [evaluateCascade, cascadeFromSuffix, h1, h2, h3, h4]⟩
  | none =>
  cases h5 : yougenType t.fstring with
  | none =>
    refine Or.inr ⟨?_, rfl⟩
    simp [evaluateCascade, cascadeFromSuffix, checkType, h1, h2, h3, h4, h5]
  | some ty =>
    by_cases hty : ty = "形" ∨ ty = "判"
    · exact Or.inl ⟨false,
        by simp [evaluateCascade, cascadeFromSuffix, checkType, h1, h2, h3, h4, h5, hty]⟩
    · cases h6 : checkMeaning ex t with
      | some b =>
        exact Or.inl ⟨b, by
          simp [evaluateCascade, cascadeFromSuffix, checkType, h1, h2, h3, h4, h5, hty, h6]⟩
      | none =>
        exact Or.inl ⟨true, by
          simp [evaluateCascade, cascadeFromSuffix, checkType, h1, h2, h3, h4, h5, hty, h6]⟩

/-! ### Claims -/

/-- Claim C2: a predicate chunk whose feature annotation carries both a
volition modality and a non-volition voice marker classifies true, because
the modality stage runs before the voice stage (provided the nominative
check of stage 1 does not already fire). -/
theorem c2_modality_beats_voice (ex : List String) (t : Tag) (nom : Option StrOrTag)
    (f m g v : String)
    (hf : f ∈ t.fstring) (hfv : featValue "モダリティ-" f = some m)
    (hm : m ∈ volitionModalities)
    (_hg : g ∈ t.fstring) (_hgv : featValue "態:" g = some v)
    (_hv : v ∈ nonVolitionVoices)
    (hnom : checkNominative nom = none) :
    evaluateCascade ex t nom = Except.ok true := by
  have hmod := checkModality_fires hf hfv hm
  simp only [evaluateCascade, hnom, hmod]

/-- Witness for C2: 「考えられるつもりだ」-like chunk carrying both
モダリティ-意志 and 態:受動 classifies true. -/
theorem c2_modality_beats_voice_witness :
    evaluateCascade [] ⟨["モダリティ-意志", "態:受動", "用言:動"], [], none, "", ""⟩ none
      = Except.ok true :=
  c2_modality_beats_voice [] ⟨["モダリティ-意志", "態:受動", "用言:動"], [], none, "", ""⟩ none
    "モダリティ-意志" "意志" "態:受動" "受動"
    (by decide) (by decide) (by decide) (by decide) (by decide) (by decide) (by decide)

/-- Claim C4 counterexample: with a caller-supplied override that is the
empty set, construction does not use the supplied set; the file-backed
default survives (`if non_volition_head_repnames:` is false on an empty
list). -/
theorem c4_empty_override_counterexample :
    initExceptionalHeadRepnames ["気付く/きづく"] (some []) = ["気付く/きづく"]
    ∧ initExceptionalHeadRepnames ["気付く/きづく"] (some []) ≠ [] := by decide

/-- Claim C4 (amended): a non-empty caller-supplied override fully replaces
the file-backed default; an absent or empty override falls back to the
file-backed default. -/
theorem c4_override_replaces_default (fileRepnames l : List String) :
    (l ≠ [] → initExceptionalHeadRepnames fileRepnames (some l) = l)
    ∧ initExceptionalHeadRepnames fileRepnames (some []) = fileRepnames
    ∧ initExceptionalHeadRepnames fileRepnames none = fileRepnames := by
  refine ⟨fun hl => ?_, ?_, rfl⟩
  · simp [initExceptionalHeadRepnames, hl]
  · simp [initExceptionalHeadRepnames]

/-- Witness for C4: a non-empty override replaces the default. -/
theorem c4_override_replaces_default_witness :
    initExceptionalHeadRepnames ["気付く/きづく"] (some ["驚く/おどろく"]) = ["驚く/おどろく"] :=
  (c4_override_replaces_default ["気付く/きづく"] ["驚く/おどろく"]).1 (by decide)

/-- Claim C5 counterexample: the stage-4 scan does not stop at a non-suffix
morpheme.  In the chunk [しまう (verbal suffix), 飲む (plain verb)] the last
morpheme is not a suffix, yet the earlier suffix still produces the stage-4
verdict false. -/
theorem c5_scan_passes_non_suffix_counterexample :
    suffixVerdict ⟨"飲む", "動詞", "飲む/のむ", []⟩ = none
    ∧ checkSuffix [⟨"しまう", "動詞性接尾辞", "しまう/しまう", []⟩,
        ⟨"飲む", "動詞", "飲む/のむ", []⟩] = some false := by decide

/-- Claim C5 (amended): stage 4 scans all of the predicate chunk's morphemes
right to left; the morpheme closest to the sentence end is decided first, a
morpheme with no verdict is skipped (whether or not it is a suffix), and the
scan stops only when a decision fires or the morphemes are exhausted. -/
theorem c5_suffix_scan_right_to_left (mrphs : List Morpheme) (m : Morpheme) :
    (∀ b, suffixVerdict m = some b → checkSuffix (mrphs ++ [m]) = some b)
    ∧ (suffixVerdict m = none → checkSuffix (mrphs ++ [m]) = checkSuffix mrphs)
    ∧ checkSuffix [] = none := by
  refine ⟨fun b hb => ?_, fun hn => ?_, rfl⟩
  · unfold checkSuffix
    rw [List.reverse_append]
    simp only [List.reverse_singleton, List.singleton_append]
    exact firstHit_cons_some hb
  · unfold checkSuffix
    rw [List.reverse_append]
    simp only [List.reverse_singleton, List.singleton_append]
    exact firstHit_cons_none hn

/-- Witness for C5: the rightmost morpheme 可能接尾辞 decides first. -/
theorem c5_suffix_scan_right_to_left_witness :
    checkSuffix [⟨"飲む", "動詞", "飲む/のむ", []⟩,
      ⟨"める", "動詞性接尾辞", "める/める", ["可能接尾辞"]⟩] = some false :=
  (c5_suffix_scan_right_to_left [⟨"飲む", "動詞", "飲む/のむ", []⟩]
    ⟨"める", "動詞性接尾辞", "める/める", ["可能接尾辞"]⟩).1 false (by decide)

/-- Claim C9: when no stage from 1 through 6 produces a verdict, the cascade
returns the default verdict true. -/
theorem c9_default_true (ex : List String) (t : Tag) (nom : Option StrOrTag)
    (h1 : checkNominative nom = none) (h2 : checkModality t.fstring = none)
    (h3 : checkVoice t.fstring = none) (h4 : checkSuffix t.mrphs = none)
    (h5 : checkType t.fstring = Except.ok none) (h6 : checkMeaning ex t = none) :
    evaluateCascade ex t nom = Except.ok true := by
  simp only [evaluateCascade, cascadeFromSuffix, h1, h2, h3, h4, h5, h6]

/-- Witness for C9: an unmarked verbal predicate with an unknown subject is
presumed volitional. -/
theorem c9_default_true_witness :
    evaluateCascade [] ⟨["用言:動"], [⟨"歩く", "動詞", "歩く/あるく", []⟩], none, "", "歩く/あるく"⟩ none
      = Except.ok true :=
  c9_default_true [] ⟨["用言:動"], [⟨"歩く", "動詞", "歩く/あるく", []⟩], none, "", "歩く/あるく"⟩ none
    (by decide) (by decide) (by decide) (by decide) (by decide) (by decide)

/-- Claim C1 counterexample: the cascade is not total after input
validation.  A predicate chunk whose feature annotation carries no
用言:[動形判] marker (here, the defensive-fallback chunk with the feature
体言) passes stages 1 to 4 and then raises at stage 5, where
`re.search('<用言:([動形判])>', fstring).group(1)` is called on a failed
search. -/
theorem c1_stage5_raises_counterexample :
    evaluateCascade [] ⟨["体言"], [⟨"歩く", "動詞", "歩く/あるく", []⟩], none, "", "歩く/あるく"⟩ none
      = Except.error IshiError.attributeError := by decide

/-- Claim C1 (amended): every cascade stage after input validation is total
except the predicate-type extraction of stage 5: whenever the feature
annotation carries a 用言:[動形判] marker the cascade returns a boolean, and
the only possible failure is the stage-5 AttributeError, which occurs only
when that marker is absent. -/
theorem c1_cascade_total_except_missing_type_marker (ex : List String) (t : Tag)
    (nom : Option StrOrTag) :
    ((yougenType t.fstring).isSome → ∃ b, evaluateCascade ex t nom = Except.ok b)
    ∧ (∀ e, evaluateCascade ex t nom = Except.error e →
        e = IshiError.attributeError ∧ yougenType t.fstring = none) := by
  rcases evaluateCascade_shape ex t nom with ⟨b, hb⟩ | ⟨he, hy⟩
  · refine ⟨fun _ => ⟨b, hb⟩, fun e h => ?_⟩
    rw [hb] at h
    cases h
  · refine ⟨fun hs => ?_, fun e h => ?_⟩
    · simp [hy] at hs
    · rw [he] at h
      injection h with h'
      exact ⟨h'.symm, hy⟩

/-- Witness for C1: with a 用言:動 marker the cascade returns a boolean. -/
theorem c1_cascade_total_witness :
    ∃ b, evaluateCascade []
      ⟨["用言:動"], [⟨"走る", "動詞", "走る/はしる", []⟩], none, "", "走る/はしる"⟩ none
      = Except.ok b :=
  (c1_cascade_total_except_missing_type_marker []
    ⟨["用言:動"], [⟨"走る", "動詞", "走る/はしる", []⟩], none, "", "走る/はしる"⟩ none).1
    (by decide)

/-- Claim C3 counterexample: an explicitly supplied empty-string nominative
is not returned unchanged — `if not nominative_str_or_tag:` is true on the
empty string, so the predicate's case frame is consulted and overwrites
it. -/
theorem c3_empty_string_nominative_counterexample :
    resolveNominative none
      ⟨["用言:動"], [], some ⟨[("ガ", [⟨"s1", -1, "著者"⟩])]⟩, "", ""⟩
      (some (StrOrTag.str ""))
      = some (StrOrTag.str "著者")
    ∧ resolveNominative none
      ⟨["用言:動"], [], some ⟨[("ガ", [⟨"s1", -1, "著者"⟩])]⟩, "", ""⟩
      (some (StrOrTag.str ""))
      ≠ some (StrOrTag.str "") := by decide

/-- Claim C3 (amended): an explicit nominative that is a chunk or a
non-empty surface string is returned unchanged and the predicate's case
frame is never consulted; an empty-string explicit nominative instead
triggers case-frame resolution, whose result, when it exists, replaces the
empty string. -/
theorem c3_explicit_nominative_unchanged (blistOpt : Option BList) (t : Tag) :
    (∀ s, s ≠ "" →
      resolveNominative blistOpt t (some (StrOrTag.str s)) = some (StrOrTag.str s))
    ∧ (∀ nt, resolveNominative blistOpt t (some (StrOrTag.tag nt)) = some (StrOrTag.tag nt))
    ∧ (∀ v, resolveFromPas blistOpt t = some v →
        resolveNominative blistOpt t (some (StrOrTag.str "")) = some v) := by
  refine ⟨fun s hs => ?_, fun nt => ?_, fun v hv => ?_⟩
  · have hbeq : pyFalsy (some (StrOrTag.str s)) = false := by
      simp [pyFalsy, hs]
    simp [resolveNominative, hbeq]
  · simp [resolveNominative, pyFalsy]
  · simp [resolveNominative, pyFalsy, hv]

/-- Witness for C3: a non-empty explicit nominative passes through even
though the predicate's case frame names a different nominative. -/
theorem c3_explicit_nominative_unchanged_witness :
    resolveNominative none
      ⟨["用言:動"], [], some ⟨[("ガ", [⟨"s1", -1, "著者"⟩])]⟩, "", ""⟩
      (some (StrOrTag.str "読者")) = some (StrOrTag.str "読者") :=
  (c3_explicit_nominative_unchanged none
    ⟨["用言:動"], [], some ⟨[("ガ", [⟨"s1", -1, "著者"⟩])]⟩, "", ""⟩).1 "読者" (by decide)

/-- Claim C6: at stage 4, a morpheme of subcategory 形容詞性述語接尾辞 yields
the verdict false unless its repname is ない/ない or たい/たい, in which case
scanning continues with no verdict; when such a morpheme with an invalid
repname occurs in the chunk and stages 1 to 3 produce no verdict, the
cascade returns false. -/
theorem c6_adjectival_predicate_suffix (ex : List String) (t : Tag)
    (nom : Option StrOrTag) (m : Morpheme)
    (hb : m.bunrui = "形容詞性述語接尾辞") :
    (m.repname ∉ validAdjectivePredicateSuffixRepnames → suffixVerdict m = some false)
    ∧ (m.repname ∈ validAdjectivePredicateSuffixRepnames → suffixVerdict m = none)
    ∧ (m ∈ t.mrphs → m.repname ∉ validAdjectivePredicateSuffixRepnames →
        checkNominative nom = none → checkModality t.fstring = none →
        checkVoice t.fstring = none → evaluateCascade ex t nom = Except.ok false) := by
  have hkey : suffixVerdict m =
      (if m.repname ∈ validAdjectivePredicateSuffixRepnames then none else some false) := by
    unfold suffixVerdict
    rw [hb, if_neg (by decide), if_pos rfl]
  refine ⟨fun hrep => ?_, fun hrep => ?_, fun hmem hrep h1 h2 h3 => ?_⟩
  · rw [hkey, if_neg hrep]
  · rw [hkey, if_pos hrep]
  · have hsv : suffixVerdict m = some false := by rw [hkey, if_neg hrep]
    have hfire : checkSuffix t.mrphs = some false :=
      firstHit_const_of_mem (List.mem_reverse.2 hmem) hsv
        (fun y b' hy => suffixVerdict_false hy)
    rw [evaluateCascade_stage4 h1 h2 h3]
    simp only [cascadeFromSuffix, hfire]

/-- Witness for C6: 「考えやすい」-like chunk; やすい/やすい is an adjectival
predicate suffix outside the valid set, so the cascade returns false. -/
theorem c6_adjectival_predicate_suffix_witness :
    evaluateCascade []
      ⟨["用言:形"], [⟨"考え", "動詞", "考える/かんがえる", []⟩,
        ⟨"やすい", "形容詞性述語接尾辞", "やすい/やすい", []⟩], none, "", "考える/かんがえる"⟩
      none = Except.ok false :=
  (c6_adjectival_predicate_suffix []
    ⟨["用言:形"], [⟨"考え", "動詞", "考える/かんがえる", []⟩,
      ⟨"やすい", "形容詞性述語接尾辞", "やすい/やすい", []⟩], none, "", "考える/かんがえる"⟩
    none ⟨"やすい", "形容詞性述語接尾辞", "やすい/やすい", []⟩ (by decide)).2.2
    (by decide) (by decide) (by decide) (by decide) (by decide)

/-- Claim C7: rule-set lookups outside modality/voice detection are exact
membership tests on a morpheme's semantic-label set: a semantic-label rule
fires exactly when some label equals the entry, never because a label merely
contains it; modality detection instead tests presence of a labelled feature
inside the chunk's feature annotation. -/
theorem c7_exact_membership_lookups :
    (∀ m : Morpheme, m.bunrui = "動詞性接尾辞" → "可能接尾辞" ∉ m.imis →
        m.repname ∉ nonVolitionSuffixes → suffixVerdict m = none)
    ∧ (∀ m : Morpheme, m.bunrui = "動詞性接尾辞" → "可能接尾辞" ∈ m.imis →
        suffixVerdict m = some false)
    ∧ (∀ m : Morpheme, "可能動詞" ∉ m.imis → "自他動詞:他" ∉ m.imis →
        meaningVerdict m = none)
    ∧ (∀ m : Morpheme, "可能動詞" ∈ m.imis → meaningVerdict m = some false)
    ∧ (∀ (fs : List String) (f m : String), f ∈ fs →
        featValue "モダリティ-" f = some m → m ∈ volitionModalities →
        checkModality fs = some true) := by
  refine ⟨fun m hb h1 h2 => ?_, fun m hb h1 => ?_, fun m h1 h2 => ?_,
    fun m h1 => ?_, fun fs f m hf hfv hm => checkModality_fires hf hfv hm⟩
  · unfold suffixVerdict
    rw [hb, if_neg (by decide), if_neg (by decide), if_pos rfl,
      if_neg h1, if_neg h2]
  · unfold suffixVerdict
    rw [hb, if_neg (by decide), if_neg (by decide), if_pos rfl, if_pos h1]
  · unfold meaningVerdict
    rw [if_neg h1, if_neg h2]
  · unfold meaningVerdict
    rw [if_pos h1]

/-- Witness for C7: a label that merely contains 可能接尾辞 as a proper
substring does not fire the exact-membership lookup. -/
theorem c7_exact_membership_lookups_witness :
    suffixVerdict ⟨"られる", "動詞性接尾辞", "られる/られる", ["非可能接尾辞"]⟩ = none :=
  c7_exact_membership_lookups.1 ⟨"られる", "動詞性接尾辞", "られる/られる", ["非可能接尾辞"]⟩
    (by decide) (by decide) (by decide)

/-- Claim C8: the predicate locator returns the rightmost chunk carrying a
用言: feature; if no chunk carries one, the sentence's last chunk; and on a
sentence with zero chunks it fails with the index error raised by
`tag_list()[-1]`. -/
theorem c8_extract_predicate_tag_spec :
    (∀ (pre post : List Tag) (t : Tag), isYougenTag t = true →
        (∀ u ∈ post, isYougenTag u = false) →
        extract_predicate_tag (pre ++ t :: post) = Except.ok t)
    ∧ (∀ (tags : List Tag) (t : Tag), (∀ u ∈ tags, isYougenTag u = false) →
        tags.getLast? = some t → extract_predicate_tag tags = Except.ok t)
    ∧ extract_predicate_tag [] = Except.error IshiError.indexError := by
  refine ⟨fun pre post t ht hpost => ?_, fun tags t hall hlast => ?_, rfl⟩
  · unfold extract_predicate_tag
    have hrev : (pre ++ t :: post).reverse = post.reverse ++ t :: pre.reverse := by
      simp [List.reverse_append]
    have hnone : List.find? isYougenTag post.reverse = none :=
      List.find?_eq_none.2 fun u hu => by simp [hpost u (List.mem_reverse.1 hu)]
    rw [hrev, find?_append_of_none hnone, List.find?_cons_of_pos _ ht]
  · unfold extract_predicate_tag
    have hnone : List.find? isYougenTag tags.reverse = none :=
      List.find?_eq_none.2 fun u hu => by simp [hall u (List.mem_reverse.1 hu)]
    rw [hnone, hlast]

/-- Witness for C8: among [用言 chunk, plain chunk] the locator returns the
rightmost 用言 chunk, here the first of the two. -/
theorem c8_extract_predicate_tag_witness :
    extract_predicate_tag
      [⟨["用言:動"], [], none, "", ""⟩, ⟨["体言"], [], none, "", ""⟩]
      = Except.ok ⟨["用言:動"], [], none, "", ""⟩ :=
  c8_extract_predicate_tag_spec.1 [] [⟨["体言"], [], none, "", ""⟩]
    ⟨["用言:動"], [], none, "", ""⟩ (by decide) (by decide)

/-- Claim C10: stage 3 consults only the first 態: feature of the feature
annotation, compares its whole value against 使役 and against the closed
non-volition set, and on any other value produces no verdict, so that
evaluation continues with stage 4. -/
theorem c10_voice_stage (ex : List String) (t : Tag) (nom : Option StrOrTag)
    (pre post : List String) (f v : String) :
    (t.fstring = pre ++ f :: post → (∀ g ∈ pre, featValue "態:" g = none) →
      featValue "態:" f = some v →
      checkVoice t.fstring =
        (if v = "使役" then some true
         else if v ∈ nonVolitionVoices then some false
         else none))
    ∧ (checkNominative nom = none → checkModality t.fstring = none →
        checkVoice t.fstring = none →
        evaluateCascade ex t nom = cascadeFromSuffix ex t) := by
  constructor
  · intro hfs hpre hf
    unfold checkVoice voiceValue
    rw [hfs, firstHit_append_none hpre, firstHit_cons_some hf]
  · exact fun h1 h2 h3 => evaluateCascade_stage4 h1 h2 h3

/-- Witness for C10: the voice value 使役&可能, outside both closed sets,
produces no stage-3 verdict even with a second 態: feature following it. -/
theorem c10_voice_stage_witness :
    checkVoice ["態:使役&可能", "態:受動"] = none :=
  ((c10_voice_stage [] ⟨["態:使役&可能", "態:受動"], [], none, "", ""⟩ none
    [] ["態:受動"] "態:使役&可能" "使役&可能").1 rfl (by decide) (by decide)).trans
    (by decide)

end Ishi
